import Mathlib

/-!
Verification of the incident-ticket query engine (`backend/main.py`) against
its specification.  The Python source is shallowly embedded: the pandas
dataframe becomes a `List Ticket`, a Python dict becomes an association
list, raised Python exceptions become `Except.error` values, and the
strings/records returned to the caller become the `Reply` type.
-/

namespace IncidentBot

/-- A calendar date, standing for a parsed pandas timestamp.  Only the
components the engine inspects (`dt.month`, `dt.year`) plus the day are kept. -/
structure Date where
  year : Int
  month : Int
  day : Int
deriving DecidableEq, Repr

/-- One row of `incidents.csv` after the startup parse: `created_date` is a
required timestamp, `closed_date` is coerced to `none` when unparseable. -/
structure Ticket where
  ticket_id : Nat
  company : String
  status : String
  priority : String
  category : String
  assigned_to : String
  created_date : Date
  closed_date : Option Date
deriving DecidableEq, Repr

/-- A JSON scalar arriving in the tool-call arguments: the engine only ever
stringifies it (`str(value)`) or coerces it to an integer (`int(value)`). -/
inductive Value where
  | s : String → Value
  | i : Int → Value
deriving DecidableEq, Repr

/-- Raised Python exceptions that can escape the engine, as opposed to
structured replies: `KeyError` from `tool_map[tool_name]`, `TypeError` from
unpacking `**args` with a missing required parameter, `ValueError` from
`int()` on a non-numeric string. -/
inductive PyErr where
  | keyError : PyErr
  | typeError : PyErr
  | valueError : PyErr
deriving DecidableEq, Repr

/-- The value a group-by partition is keyed on: a month number when grouping
by the synthetic `month` key, otherwise the string in the grouped column. -/
inductive GVal where
  | i : Int → GVal
  | s : String → GVal
deriving DecidableEq, Repr

/-- A structured result handed back to the caller: a plain text message,
a list of ticket records (`to_dict(orient="records")`), or a mapping from
group-key value to partition size (`result.to_dict()`). -/
inductive Reply where
  | msg : String → Reply
  | records : List Ticket → Reply
  | groups : List (GVal × Nat) → Reply
deriving DecidableEq, Repr

/-- `ALLOWED_FILTERS` from `main.py`. -/
def ALLOWED_FILTERS : List String :=
  ["company", "status", "priority", "category", "assigned_to"]

/-- `ALLOWED_GROUP_BY` from `main.py`. -/
def ALLOWED_GROUP_BY : List String :=
  ["company", "status", "priority", "category", "assigned_to", "month"]

/-- Column access `row[col]` for the allow-listed string columns.  The engine
only reaches this behind a membership test on `ALLOWED_FILTERS` or
`ALLOWED_GROUP_BY`, so the fallback is never observed. -/
def getField (t : Ticket) (col : String) : String :=
  if col = "company" then t.company
  else if col = "status" then t.status
  else if col = "priority" then t.priority
  else if col = "category" then t.category
  else if col = "assigned_to" then t.assigned_to
  else ""

/-- ASCII lower-casing of one character, modelling Python `str.lower` on the
ASCII data this engine handles. -/
def lowerChar (c : Char) : Char :=
  if 'A' ≤ c ∧ c ≤ 'Z' then Char.ofNat (c.toNat + 32) else c

/-- Python `str.lower()`, applied to the string's character list. -/
def pyLower (s : String) : String :=
  ⟨s.data.map lowerChar⟩

/-- Python `str(value)`. -/
def pyStr : Value → String
  | .s s => s
  | .i n => toString n

/-- The numeric value of one decimal digit character. -/
def digitVal (c : Char) : Option Nat :=
  if '0' ≤ c ∧ c ≤ '9' then some (c.toNat - 48) else none

/-- Decimal parsing of a non-empty run of digit characters; any non-digit
poisons the parse. -/
def parseDigits : List Char → Option Nat
  | [] => none
  | cs =>
    cs.foldl
      (fun acc c =>
        match acc, digitVal c with
        | some n, some v => some (n * 10 + v)
        | _, _ => none)
      (some 0)

/-- Python `int()` applied to a string: an optional sign followed by decimal
digits; anything else raises `ValueError`. -/
def strToInt (s : String) : Option Int :=
  match s.data with
  | '-' :: rest => (parseDigits rest).map (fun n => -(n : Int))
  | '+' :: rest => (parseDigits rest).map (fun n => (n : Int))
  | cs => (parseDigits cs).map (fun n => (n : Int))

/-- Python `int(value)`: an integer passes through, a string is parsed as a
decimal integer, anything else raises `ValueError`. -/
def pyInt : Value → Except PyErr Int
  | .i n => .ok n
  | .s str =>
    match strToInt str with
    | some n => .ok n
    | none => .error .valueError

/-- Python truthiness of an optional dict argument (`if filters:`):
`None` and the empty dict are falsy. -/
def truthy : Option (List (String × Value)) → Bool
  | none => false
  | some l => !l.isEmpty

/-- The equality predicate of one field filter:
`df_out[col].str.lower() == str(value).lower()`. -/
def matchesField (col : String) (value : Value) (t : Ticket) : Bool :=
  pyLower (getField t col) == pyLower (pyStr value)

/-- The `for col, value in filters.items()` loop of `apply_filters`: each
allow-listed entry narrows the frame, unlisted entries are skipped. -/
def applyFieldFilters (l : List Ticket) (filters : List (String × Value)) :
    List Ticket :=
  filters.foldl
    (fun acc cv =>
      if cv.1 ∈ ALLOWED_FILTERS then acc.filter (matchesField cv.1 cv.2)
      else acc)
    l

/-- The `if "month" in date_filter:` statement of `apply_filters`:
keep rows whose `created_date.dt.month` equals `int(date_filter["month"])`. -/
def monthStep (l : List Ticket) (d : List (String × Value)) :
    Except PyErr (List Ticket) :=
  match d.lookup "month" with
  | some v =>
    match pyInt v with
    | .ok m => .ok (l.filter (fun t => t.created_date.month == m))
    | .error e => .error e
  | none => .ok l

/-- The `if "year" in date_filter:` statement of `apply_filters`:
keep rows whose `created_date.dt.year` equals `int(date_filter["year"])`. -/
def yearStep (l : List Ticket) (d : List (String × Value)) :
    Except PyErr (List Ticket) :=
  match d.lookup "year" with
  | some v =>
    match pyInt v with
    | .ok y => .ok (l.filter (fun t => t.created_date.year == y))
    | .error e => .error e
  | none => .ok l

/-- The `if date_filter:` block of `apply_filters`: the month constraint
followed by the year constraint, either of which can raise `ValueError`. -/
def applyDateFilter (l : List Ticket) (d : List (String × Value)) :
    Except PyErr (List Ticket) :=
  match monthStep l d with
  | .ok l1 => yearStep l1 d
  | .error e => .error e

/-- `apply_filters(df_in, filters, date_filter)` from `main.py`. -/
def apply_filters (df_in : List Ticket)
    (filters date_filter : Option (List (String × Value))) :
    Except PyErr (List Ticket) :=
  let df_out := df_in
  let df_out :=
    if truthy filters then applyFieldFilters df_out (filters.getD [])
    else df_out
  if truthy date_filter then applyDateFilter df_out (date_filter.getD [])
  else .ok df_out

/-- `count_tickets(filters, date_filter)` from `main.py`: the dataframe is a
parameter here where the source reads the module-level `df`. -/
def count_tickets (df : List Ticket)
    (filters date_filter : Option (List (String × Value))) :
    Except PyErr String :=
  match apply_filters df filters date_filter with
  | .ok filtered => .ok ("Total tickets: " ++ toString filtered.length)
  | .error e => .error e

/-- `filter_tickets(filters, date_filter)` from `main.py`. -/
def filter_tickets (df : List Ticket)
    (filters date_filter : Option (List (String × Value))) :
    Except PyErr Reply :=
  match apply_filters df filters date_filter with
  | .ok filtered =>
    if filtered.isEmpty then
      .ok (.msg "No tickets found matching the criteria.")
    else
      .ok (.records filtered)
  | .error e => .error e

/-- `groupby(...).size().to_dict()`: each distinct key value is paired with
the number of rows carrying it. -/
def groupCounts (keys : List GVal) : List (GVal × Nat) :=
  keys.dedup.map (fun v => (v, keys.count v))

/-- `group_by_tickets(group_by, filters, date_filter)` from `main.py`. -/
def group_by_tickets (df : List Ticket) (group_by : String)
    (filters date_filter : Option (List (String × Value))) :
    Except PyErr Reply :=
  if group_by ∉ ALLOWED_GROUP_BY then
    .ok (.msg "Invalid group_by column.")
  else
    match apply_filters df filters date_filter with
    | .ok filtered =>
      if filtered.isEmpty then
        .ok (.msg "No data available for grouping.")
      else if group_by == "month" then
        .ok (.groups
          (groupCounts (filtered.map (fun t => GVal.i t.created_date.month))))
      else
        .ok (.groups
          (groupCounts (filtered.map (fun t => GVal.s (getField t group_by)))))
    | .error e => .error e

/-- The argument object decoded from the tool call's JSON, with the same
optional shape the three Python functions declare. -/
structure ToolArgs where
  group_by : Option String := none
  filters : Option (List (String × Value)) := none
  date_filter : Option (List (String × Value)) := none
deriving DecidableEq, Repr

/-- The dispatch step of the `chat` endpoint:
`result = tool_map[tool_name](**args)`.  A name outside `tool_map` raises
`KeyError`; calling `group_by_tickets` without its required `group_by`
argument raises `TypeError` at unpacking time.  Both are raised faults
(`Except.error`), not structured replies. -/
def dispatch (df : List Ticket) (tool_name : String) (args : ToolArgs) :
    Except PyErr Reply :=
  if tool_name == "count_tickets" then
    (count_tickets df args.filters args.date_filter).map Reply.msg
  else if tool_name == "filter_tickets" then
    filter_tickets df args.filters args.date_filter
  else if tool_name == "group_by_tickets" then
    match args.group_by with
    | none => .error .typeError
    | some k => group_by_tickets df k args.filters args.date_filter
  else
    .error .keyError

/-- First ticket of the specification's scenario dataset. -/
def sampleT1 : Ticket :=
  { ticket_id := 1, company := "Acme", status := "open", priority := "high",
    category := "network", assigned_to := "alice",
    created_date := { year := 2024, month := 1, day := 5 },
    closed_date := none }

/-- Second ticket of the specification's scenario dataset. -/
def sampleT2 : Ticket :=
  { ticket_id := 2, company := "Acme", status := "closed", priority := "low",
    category := "software", assigned_to := "bob",
    created_date := { year := 2024, month := 2, day := 10 },
    closed_date := some { year := 2024, month := 2, day := 12 } }

/-- Third ticket of the specification's scenario dataset. -/
def sampleT3 : Ticket :=
  { ticket_id := 3, company := "Beta", status := "open", priority := "high",
    category := "hardware", assigned_to := "carol",
    created_date := { year := 2024, month := 1, day := 20 },
    closed_date := none }

/-- The three-ticket scenario dataset of the specification. -/
def sampleDf : List Ticket :=
  [sampleT1, sampleT2, sampleT3]

/-! ### Helper lemmas about the filter stages -/

/-- Folding an empty filter dict changes nothing. -/
theorem applyFieldFilters_nil (l : List Ticket) : applyFieldFilters l [] = l :=
  rfl

/-- One step of the `for col, value in filters.items()` loop. -/
theorem applyFieldFilters_cons (l : List Ticket) (c : String × Value)
    (rest : List (String × Value)) :
    applyFieldFilters l (c :: rest) =
      applyFieldFilters
        (if c.1 ∈ ALLOWED_FILTERS then l.filter (matchesField c.1 c.2) else l)
        rest :=
  rfl

/-- The field-filter loop only ever narrows the frame. -/
theorem applyFieldFilters_sublist (fs : List (String × Value))
    (l : List Ticket) : (applyFieldFilters l fs).Sublist l := by
  induction fs generalizing l with
  | nil => exact List.Sublist.refl l
  | cons c rest ih =>
    rw [applyFieldFilters_cons]
    refine (ih _).trans ?_
    by_cases hc : c.1 ∈ ALLOWED_FILTERS
    · rw [if_pos hc]
      exact List.filter_sublist l
    · rw [if_neg hc]

/-- A successful month constraint only ever narrows the frame. -/
theorem monthStep_sublist (l : List Ticket) (d : List (String × Value))
    (l2 : List Ticket) (h : monthStep l d = .ok l2) : l2.Sublist l := by
  unfold monthStep at h
  split at h
  · split at h
    · cases h
      exact List.filter_sublist l
    · cases h
  · cases h
    exact List.Sublist.refl l

/-- A successful year constraint only ever narrows the frame. -/
theorem yearStep_sublist (l : List Ticket) (d : List (String × Value))
    (l2 : List Ticket) (h : yearStep l d = .ok l2) : l2.Sublist l := by
  unfold yearStep at h
  split at h
  · split at h
    · cases h
      exact List.filter_sublist l
    · cases h
  · cases h
    exact List.Sublist.refl l

/-- A successful date filter only ever narrows the frame. -/
theorem applyDateFilter_sublist (l : List Ticket) (d : List (String × Value))
    (l2 : List Ticket) (h : applyDateFilter l d = .ok l2) : l2.Sublist l := by
  unfold applyDateFilter at h
  split at h
  next l1 heq => exact (yearStep_sublist l1 d l2 h).trans (monthStep_sublist l d l1 heq)
  next e heq => cases h

/-! ### Claim theorems -/

/-- C10: for every dataset and every combination of `filters` and
`date_filter`, a successful run of `apply_filters` returns a subsequence of
the input dataset: every output record occurs in the input, none is
duplicated or synthesized, and the relative order of the input is kept. -/
theorem c10_output_subsequence (df : List Ticket)
    (f d : Option (List (String × Value))) (l : List Ticket)
    (h : apply_filters df f d = .ok l) : l.Sublist df := by
  have hstage :
      (if truthy f then applyFieldFilters df (f.getD []) else df).Sublist df := by
    split
    · exact applyFieldFilters_sublist (f.getD []) df
    · exact List.Sublist.refl df
  have h2 :
      (if truthy d then
          applyDateFilter
            (if truthy f then applyFieldFilters df (f.getD []) else df)
            (d.getD [])
        else
          .ok (if truthy f then applyFieldFilters df (f.getD []) else df)) =
        .ok l := h
  split at h2
  · exact (applyDateFilter_sublist _ _ _ h2).trans hstage
  · cases h2
    exact hstage

/-- Witness for C10 at a concrete dataset and filter. -/
theorem c10_witness :
    apply_filters sampleDf (some [("company", Value.s "Acme")]) none =
      .ok [sampleT1, sampleT2] ∧
    List.Sublist [sampleT1, sampleT2] sampleDf :=
  ⟨rfl, c10_output_subsequence sampleDf (some [("company", Value.s "Acme")])
    none [sampleT1, sampleT2] rfl⟩

/-- C3: whenever the shared filter stage succeeds with result `l`,
`count_tickets` reports exactly `l.length`, `filter_tickets` returns the
"no results" marker precisely when that count is `0`, and otherwise returns
the records themselves (so the count equals the length of the listed
sequence). -/
theorem c3_count_list_consistent (df : List Ticket)
    (f d : Option (List (String × Value))) (l : List Ticket)
    (h : apply_filters df f d = .ok l) :
    count_tickets df f d = .ok ("Total tickets: " ++ toString l.length) ∧
    (filter_tickets df f d =
        .ok (.msg "No tickets found matching the criteria.") ↔ l.length = 0) ∧
    (l.length ≠ 0 → filter_tickets df f d = .ok (.records l)) := by
  unfold count_tickets filter_tickets
  rw [h]
  refine ⟨rfl, ?_, ?_⟩
  · cases l with
    | nil => simp
    | cons a as => simp
  · intro hne
    cases l with
    | nil => simp at hne
    | cons a as => simp

/-- Witness for C3 at a concrete dataset and filter. -/
theorem c3_witness :
    count_tickets sampleDf (some [("status", Value.s "open")]) none =
      .ok ("Total tickets: " ++ toString ([sampleT1, sampleT3] : List Ticket).length) ∧
    (filter_tickets sampleDf (some [("status", Value.s "open")]) none =
        .ok (.msg "No tickets found matching the criteria.") ↔
      ([sampleT1, sampleT3] : List Ticket).length = 0) ∧
    (([sampleT1, sampleT3] : List Ticket).length ≠ 0 →
      filter_tickets sampleDf (some [("status", Value.s "open")]) none =
        .ok (.records [sampleT1, sampleT3])) :=
  c3_count_list_consistent sampleDf (some [("status", Value.s "open")]) none
    [sampleT1, sampleT3] rfl

/-- C5: a group key outside `ALLOWED_GROUP_BY` makes `group_by_tickets`
return the structured "Invalid group_by column." reply, for every dataset
and every filter argument — including date filters that would themselves
raise — so the rejection happens before any filtering or grouping. -/
theorem c5_invalid_group_key (df : List Ticket) (k : String)
    (f d : Option (List (String × Value))) (h : k ∉ ALLOWED_GROUP_BY) :
    group_by_tickets df k f d = .ok (.msg "Invalid group_by column.") := by
  unfold group_by_tickets
  rw [if_pos h]

/-- Witness for C5: `"ticket_id"` is rejected even alongside a date filter
whose month value would raise `ValueError` if filtering ran. -/
theorem c5_witness :
    "ticket_id" ∉ ALLOWED_GROUP_BY ∧
    group_by_tickets sampleDf "ticket_id" none
        (some [("month", Value.s "abc")]) =
      .ok (.msg "Invalid group_by column.") :=
  ⟨by decide, c5_invalid_group_key sampleDf "ticket_id" none
    (some [("month", Value.s "abc")]) (by decide)⟩

/-- Summing the partition sizes of `groupby(...).size()` recovers the number
of grouped rows. -/
theorem sum_groupCounts (keys : List GVal) :
    ((groupCounts keys).map Prod.snd).sum = keys.length := by
  unfold groupCounts
  rw [List.map_map]
  rw [show (Prod.snd ∘ fun v : GVal => (v, keys.count v)) =
      fun v : GVal => keys.count v from rfl]
  exact List.sum_map_count_dedup_eq_length keys

/-- C4: whenever `group_by_tickets` returns a partition-count mapping, the
sum of the per-partition counts equals the count `count_tickets` reports
over the same filtered set. -/
theorem c4_group_sum_eq_count (df : List Ticket) (k : String)
    (f d : Option (List (String × Value))) (m : List (GVal × Nat))
    (h : group_by_tickets df k f d = .ok (.groups m)) :
    count_tickets df f d =
      .ok ("Total tickets: " ++ toString ((m.map Prod.snd).sum)) := by
  unfold group_by_tickets at h
  split at h
  · simp at h
  · split at h
    next filtered happly =>
      split at h
      · simp at h
      · unfold count_tickets
        rw [happly]
        split at h
        · simp only [Except.ok.injEq, Reply.groups.injEq] at h
          rw [← h, sum_groupCounts, List.length_map]
        · simp only [Except.ok.injEq, Reply.groups.injEq] at h
          rw [← h, sum_groupCounts, List.length_map]
    next e happly => cases h

/-- Witness for C4: grouping the January tickets of the scenario dataset by
company gives partitions Acme ↦ 1, Beta ↦ 1, whose sizes sum to the count. -/
theorem c4_witness :
    count_tickets sampleDf none (some [("month", Value.i 1)]) =
      .ok ("Total tickets: " ++
        toString ((([(GVal.s "Acme", 1), (GVal.s "Beta", 1)] :
          List (GVal × Nat)).map Prod.snd).sum)) :=
  c4_group_sum_eq_count sampleDf "company" none (some [("month", Value.i 1)])
    [(GVal.s "Acme", 1), (GVal.s "Beta", 1)] (by rfl)

/-- C1 (code bug): the dispatcher does `tool_map[tool_name](**args)`, so an
operation name outside the whitelist raises `KeyError` — an uncontrolled
fault — instead of returning a structured "unknown operation" reply. -/
theorem c1_unknown_operation_raises (df : List Ticket) (tool_name : String)
    (args : ToolArgs)
    (h : tool_name ∉ ["count_tickets", "filter_tickets", "group_by_tickets"]) :
    dispatch df tool_name args = .error .keyError := by
  simp only [List.mem_cons, List.not_mem_nil, or_false, not_or] at h
  obtain ⟨h1, h2, h3⟩ := h
  simp [dispatch, h1, h2, h3]

/-- Witness for C1 at the concrete unknown name `"delete_tickets"`. -/
theorem c1_witness :
    "delete_tickets" ∉ ["count_tickets", "filter_tickets", "group_by_tickets"] ∧
    dispatch sampleDf "delete_tickets" {} = .error .keyError :=
  ⟨by decide, c1_unknown_operation_raises sampleDf "delete_tickets" {}
    (by decide)⟩

/-- C2 (code bug): `apply_filters` validates neither date value — a
non-integer month raises `ValueError` (an uncontrolled exception) and an
out-of-range month such as 13 silently yields an empty result; neither
produces an "invalid argument" condition. -/
theorem c2_date_validation_missing :
    apply_filters sampleDf none (some [("month", Value.s "abc")]) =
      .error .valueError ∧
    apply_filters sampleDf none (some [("month", Value.i 13)]) = .ok [] := by
  exact ⟨rfl, rfl⟩

/-- C9 (code bug): dispatching `group_by_tickets` without its required
`group_key` argument raises `TypeError` at `**args` unpacking time — an
uncontrolled fault — instead of returning a structured "missing argument"
reply. -/
theorem c9_missing_argument_raises (df : List Ticket)
    (f d : Option (List (String × Value))) :
    dispatch df "group_by_tickets"
      { group_by := none, filters := f, date_filter := d } =
      .error .typeError := by
  rfl

/-- C6: the engine composes predicates conjunctively — filtering by
`{company: "Acme"}` together with `{month: 3}` returns exactly the records
lying in both the company-only result and the month-only result. -/
theorem c6_conjunction (df : List Ticket) (t : Ticket) :
    ∃ lab la lb,
      apply_filters df (some [("company", Value.s "Acme")])
          (some [("month", Value.i 3)]) = .ok lab ∧
      apply_filters df (some [("company", Value.s "Acme")]) none = .ok la ∧
      apply_filters df none (some [("month", Value.i 3)]) = .ok lb ∧
      (t ∈ lab ↔ t ∈ la ∧ t ∈ lb) := by
  refine ⟨(df.filter (matchesField "company" (Value.s "Acme"))).filter
      (fun t => t.created_date.month == (3 : Int)),
    df.filter (matchesField "company" (Value.s "Acme")),
    df.filter (fun t => t.created_date.month == (3 : Int)),
    rfl, rfl, rfl, ?_⟩
  simp only [List.mem_filter]
  tauto

/-- A single field filter only depends on the lower-cased stringification of
its value. -/
theorem apply_filters_value_congr (df : List Ticket) (c : String)
    (v1 v2 : Value) (d : Option (List (String × Value)))
    (hv : pyLower (pyStr v1) = pyLower (pyStr v2)) :
    apply_filters df (some [(c, v1)]) d =
      apply_filters df (some [(c, v2)]) d := by
  have hm : matchesField c v1 = matchesField c v2 := by
    funext t
    unfold matchesField
    rw [hv]
  show (if truthy d then
      applyDateFilter (applyFieldFilters df [(c, v1)]) (d.getD [])
    else .ok (applyFieldFilters df [(c, v1)])) =
    (if truthy d then
      applyDateFilter (applyFieldFilters df [(c, v2)]) (d.getD [])
    else .ok (applyFieldFilters df [(c, v2)]))
  rw [show applyFieldFilters df [(c, v1)] =
      if c ∈ ALLOWED_FILTERS then df.filter (matchesField c v1) else df from
    rfl]
  rw [show applyFieldFilters df [(c, v2)] =
      if c ∈ ALLOWED_FILTERS then df.filter (matchesField c v2) else df from
    rfl]
  rw [hm]

/-- C7: filtering is case-insensitive — `status="OPEN"` and `status="open"`
produce identical results for every dataset and every date filter. -/
theorem c7_case_insensitive (df : List Ticket)
    (d : Option (List (String × Value))) :
    apply_filters df (some [("status", Value.s "OPEN")]) d =
      apply_filters df (some [("status", Value.s "open")]) d :=
  apply_filters_value_congr df "status" (Value.s "OPEN") (Value.s "open") d
    rfl

/-- Dropping the entries whose field is outside `ALLOWED_FILTERS` does not
change the field-filter loop. -/
theorem applyFieldFilters_filter_allowed (fs : List (String × Value))
    (l : List Ticket) :
    applyFieldFilters l fs =
      applyFieldFilters l
        (fs.filter (fun cv => decide (cv.1 ∈ ALLOWED_FILTERS))) := by
  induction fs generalizing l with
  | nil => rfl
  | cons c rest ih =>
    by_cases hc : c.1 ∈ ALLOWED_FILTERS
    · rw [List.filter_cons_of_pos (by simpa using hc)]
      rw [applyFieldFilters_cons, applyFieldFilters_cons]
      exact ih _
    · rw [List.filter_cons_of_neg (by simpa using hc)]
      rw [applyFieldFilters_cons, if_neg hc]
      exact ih l

/-- C8: entries of `filters` whose field name is outside `ALLOWED_FILTERS`
are silently ignored — the whole run equals the run on the allow-listed
entries alone, with no error signaled. -/
theorem c8_unlisted_fields_ignored (df : List Ticket)
    (fs : List (String × Value)) (d : Option (List (String × Value))) :
    apply_filters df (some fs) d =
      apply_filters df
        (some (fs.filter (fun cv => decide (cv.1 ∈ ALLOWED_FILTERS)))) d := by
  have hstage : (if truthy (some fs) then applyFieldFilters df fs else df) =
      (if truthy (some (fs.filter (fun cv => decide (cv.1 ∈ ALLOWED_FILTERS))))
        then
          applyFieldFilters df
            (fs.filter (fun cv => decide (cv.1 ∈ ALLOWED_FILTERS)))
        else df) := by
    cases fs with
    | nil => rfl
    | cons c rest =>
      rw [if_pos (show truthy (some (c :: rest)) = true from rfl)]
      cases hx : (c :: rest).filter (fun cv => decide (cv.1 ∈ ALLOWED_FILTERS))
        with
      | nil =>
        rw [if_neg (show ¬ truthy (some ([] : List (String × Value))) = true
          from by decide)]
        rw [applyFieldFilters_filter_allowed (c :: rest) df, hx]
        rfl
      | cons a as =>
        rw [if_pos (show truthy (some (a :: as)) = true from rfl)]
        rw [applyFieldFilters_filter_allowed (c :: rest) df, hx]
  show (if truthy d then
      applyDateFilter (if truthy (some fs) then applyFieldFilters df fs else df)
        (d.getD [])
    else .ok (if truthy (some fs) then applyFieldFilters df fs else df)) = _
  rw [hstage]
  rfl

end IncidentBot
